import Mathlib

/-!
Shallow embedding of the review-analysis pipeline of `app.py`
(`fetch_app_store_reviews`, `analyze_reviews_with_openai`, `main`).

Python strings are modelled as `List Char`; the two external
collaborators (the review-search service and the text-generation
service) are modelled as explicit inputs describing their observable
behaviour; `json.loads` (a stdlib black box) is a parameter
`jsonLoads : Str → Option JsonVal`, `none` standing for a
`JSONDecodeError`.  Calls to `st.warning` / `st.error` are recorded as
boolean fields of the result record.
-/

set_option linter.unusedVariables false

abbrev Str := List Char

def chars (s : String) : Str := s.data

/-- JSON values as produced by `json.loads`; Python dicts are
association lists with unique keys (but nothing below relies on
uniqueness), numbers are modelled as rationals (JSON decimal literals
are exact rationals). -/
inductive JsonVal where
  | null
  | bool (b : Bool)
  | num (q : ℚ)
  | str (s : Str)
  | arr (elems : List JsonVal)
  | obj (fields : List (Str × JsonVal))

/-- Python dict lookup `d[k]` on an association list (first match). -/
def lookupKey : List (Str × JsonVal) → Str → Option JsonVal
  | [], _ => none
  | (k, v) :: rest, key => if k = key then some v else lookupKey rest key

/-- Python dict assignment `d[k] = v`: replace the (first) binding of
`k`, or append a new one. -/
def setKey : List (Str × JsonVal) → Str → JsonVal → List (Str × JsonVal)
  | [], key, v => [(key, v)]
  | (k, w) :: rest, key, v =>
      if k = key then (key, v) :: rest else (k, w) :: setKey rest key v

/-- Python item read `x[k]` with a string key: only dicts support it. -/
def jsonGet (v : JsonVal) (k : Str) : Option JsonVal :=
  match v with
  | .obj fields => lookupKey fields k
  | _ => none

/-- Python item assignment `x[k] = w` with a string key: succeeds only
when `x` is a dict; on any other value it raises a `TypeError`,
modelled as `none`. -/
def jsonSet (v : JsonVal) (k : Str) (w : JsonVal) : Option JsonVal :=
  match v with
  | .obj fields => some (.obj (setKey fields k w))
  | _ => none

/-- One raw review record from the search collaborator: the fields the
pipeline reads.  `text = none` models a record without a `"text"` key,
`rating = none` one without a `"rating"` key. -/
structure RawReview where
  text : Option Str
  rating : Option Int
deriving DecidableEq

/-- `review_texts`: the loop of `analyze_reviews_with_openai` keeps
`review["text"]` for every review that has a `"text"` key whose value
is truthy (a non-empty string). -/
def extractTexts (reviews : List RawReview) : List Str :=
  reviews.filterMap (fun r =>
    match r.text with
    | some t => if t ≠ [] then some t else none
    | none => none)

/-- `ratings`: `review["rating"]` for every review that has a
`"rating"` key, regardless of its value. -/
def extractRatings (reviews : List RawReview) : List Int :=
  reviews.filterMap (fun r => r.rating)

/-- The mutable dict `rating_counts = {1: 0, 2: 0, 3: 0, 4: 0, 5: 0}`. -/
structure RatingCounts where
  c1 : Nat
  c2 : Nat
  c3 : Nat
  c4 : Nat
  c5 : Nat

/-- One iteration of `for rating in ratings: if rating in rating_counts:
rating_counts[rating] += 1` — a rating equal to one of the keys 1..5
bumps that bucket, anything else leaves the dict unchanged. -/
def bump (c : RatingCounts) (r : Int) : RatingCounts :=
  if r = 1 then { c with c1 := c.c1 + 1 }
  else if r = 2 then { c with c2 := c.c2 + 1 }
  else if r = 3 then { c with c3 := c.c3 + 1 }
  else if r = 4 then { c with c4 := c.c4 + 1 }
  else if r = 5 then { c with c5 := c.c5 + 1 }
  else c

def ratingCounts (ratings : List Int) : RatingCounts :=
  ratings.foldl bump ⟨0, 0, 0, 0, 0⟩

/-- The dict assigned to `analysis["rating_distribution"]` at lines
169–175 of `app.py`. -/
def distObj (ratings : List Int) : JsonVal :=
  .obj [ (chars "1_star", .num ((ratingCounts ratings).c1 : ℚ)),
         (chars "2_star", .num ((ratingCounts ratings).c2 : ℚ)),
         (chars "3_star", .num ((ratingCounts ratings).c3 : ℚ)),
         (chars "4_star", .num ((ratingCounts ratings).c4 : ℚ)),
         (chars "5_star", .num ((ratingCounts ratings).c5 : ℚ)) ]

/-- The hardcoded fallback object substituted when `json.loads` raises
`JSONDecodeError` (lines 152–161 of `app.py`). -/
def fallbackAnalysis : JsonVal :=
  .obj [ (chars "overall_sentiment", .str (chars "neutral")),
         (chars "sentiment_score", .num (1 / 2)),
         (chars "key_themes", .arr [.str (chars "User feedback analysis completed")]),
         (chars "common_issues", .arr [.str (chars "Review analysis available")]),
         (chars "strengths", .arr [.str (chars "User insights gathered")]),
         (chars "user_experience_feedback", .str (chars "Analysis completed successfully")),
         (chars "feature_requests", .arr [.str (chars "User feedback processed")]),
         (chars "rating_distribution",
           .obj [ (chars "1_star", .num 0), (chars "2_star", .num 0),
                  (chars "3_star", .num 0), (chars "4_star", .num 0),
                  (chars "5_star", .num 0) ]) ]

/-- Python `str.strip()` from the left: drop leading whitespace. -/
def pyStripLeft (s : Str) : Str := s.dropWhile Char.isWhitespace

/-- Python `str.strip()` from the right: drop trailing whitespace. -/
def pyStripRight (s : Str) : Str :=
  (s.reverse.dropWhile Char.isWhitespace).reverse

/-- Python `str.strip()`. -/
def pyStrip (s : Str) : Str := pyStripRight (pyStripLeft s)

/-- `if cleaned_text.startswith('```json'): cleaned_text = cleaned_text[7:]`. -/
def stripLeadingFence (t : Str) : Str :=
  if chars "```json" <+: t then t.drop 7 else t

/-- `if cleaned_text.endswith('```'): cleaned_text = cleaned_text[:-3]`. -/
def stripTrailingFence (t : Str) : Str :=
  if chars "```" <:+ t then t.take (t.length - 3) else t

/-- The code-fence stripping of lines 140–145 of `app.py`:
strip, drop a leading `` ```json `` (7 characters) if present, drop a
trailing `` ``` `` (3 characters) if present, strip again. -/
def cleanedText (s : Str) : Str :=
  pyStrip (stripTrailingFence (stripLeadingFence (pyStrip s)))

/-- Python `str(n)` for the review count interpolated into the prompt. -/
def natChars (n : Nat) : Str := (Nat.repr n).data

/-- Python `' '.join(texts)`. -/
def joinSpace (texts : List Str) : Str := List.intercalate (chars " ") texts

def promptPiece1 : Str := chars "\n        Analyze the following "

def promptPiece2 : Str := chars " Apple App Store reviews for "

def promptPiece3 : Str := chars ".\n        \n        Reviews:\n        "

def promptPiece4 : Str := chars
  "  # Limit to first 50 reviews to avoid token limits\n\n        You must respond with ONLY valid JSON in this exact format:\n        \x7b\n            \"overall_sentiment\": \"positive\",\n            \"sentiment_score\": 0.8,\n            \"key_themes\": [\"user interface\", \"performance\", \"features\"],\n            \"common_issues\": [\"slow loading\", \"buggy\", \"missing features\"],\n            \"strengths\": [\"easy to use\", \"reliable\", \"good design\"],\n            \"user_experience_feedback\": \"Users generally find the app intuitive but report performance issues\",\n            \"feature_requests\": [\"dark mode\", \"better search\", \"offline support\"],\n            \"rating_distribution\": \x7b\n                \"1_star\": 0,\n                \"2_star\": 0,\n                \"3_star\": 0,\n                \"4_star\": 0,\n                \"5_star\": 0\n            \x7d\n        \x7d\n        \n        IMPORTANT: Respond with ONLY the JSON object, no additional text or explanations.\n        "

/-- The analysis prompt f-string of lines 98–123 of `app.py`:
review count, app name, and the space-joined first 50 review texts
interpolated into the fixed template. -/
def buildPrompt (reviewTexts : List Str) (app_name : Str) : Str :=
  promptPiece1 ++ natChars reviewTexts.length ++ promptPiece2 ++ app_name
    ++ promptPiece3 ++ joinSpace (reviewTexts.take 50) ++ promptPiece4

/-- Observable outcome of one call to `analyze_reviews_with_openai`.
`result = none` is Python's `return None, None`; `calledLLM` records
whether `openai_client.chat.completions.create` was invoked, `prompt`
the prompt sent to it; `warned` whether `st.warning` fired (parse
fallback), `errored` whether `st.error` fired (outer `except`). -/
structure AnalyzeOutput where
  result : Option (JsonVal × List Int)
  calledLLM : Bool
  prompt : Option Str
  warned : Bool
  errored : Bool

/-- The behaviour of the text-generation collaborator for one call:
`.ok text` is a reply whose message content is `text`; `.error ()` is
a transport failure raised by the client (caught by the outer
`except` of `analyze_reviews_with_openai`). -/
abbrev LLMReply := Except Unit Str

/-- `analyze_reviews_with_openai` (lines 81–181 of `app.py`), with the
OpenAI client replaced by the observable reply `llmReply` and
`json.loads` by the parameter `jsonLoads`. -/
def analyze_reviews_with_openai (jsonLoads : Str → Option JsonVal)
    (reviews : List RawReview) (app_name : Str) (llmReply : LLMReply) :
    AnalyzeOutput :=
  let review_texts := extractTexts reviews
  let ratings := extractRatings reviews
  if review_texts = [] then
    { result := none, calledLLM := false, prompt := none,
      warned := false, errored := false }
  else
    match llmReply with
    | .error _ =>
        { result := none, calledLLM := true,
          prompt := some (buildPrompt review_texts app_name),
          warned := false, errored := true }
    | .ok analysis_text =>
        let parsed := jsonLoads (cleanedText analysis_text)
        let analysis := parsed.getD fallbackAnalysis
        let warned := parsed.isNone
        match jsonSet analysis (chars "rating_distribution") (distObj ratings) with
        | some analysis2 =>
            { result := some (analysis2, ratings), calledLLM := true,
              prompt := some (buildPrompt review_texts app_name),
              warned := warned, errored := false }
        | none =>
            { result := none, calledLLM := true,
              prompt := some (buildPrompt review_texts app_name),
              warned := warned, errored := true }

/-- The behaviour of the review-search collaborator for one call:
the `search.get_dict()` result either raises, lacks a `"reviews"`
key, or holds a list of review records under `"reviews"`. -/
inductive SerpResult where
  | raised
  | respWithoutReviews
  | respReviews (rs : List RawReview)

/-- Observable outcome of `fetch_app_store_reviews`: the returned list
and whether `st.error` fired. -/
structure FetchOutput where
  reviews : List RawReview
  errored : Bool

/-- `fetch_app_store_reviews` (lines 58–79 of `app.py`): a response
without a `"reviews"` key yields `[]` after `st.error`; an exception
is caught, `st.error` fires and `[]` is returned; otherwise the list
under `"reviews"` is returned as-is. -/
def fetch_app_store_reviews (app_id : Str) (api_key : Str)
    (max_reviews : Nat) (serp : SerpResult) : FetchOutput :=
  match serp with
  | .raised => { reviews := [], errored := true }
  | .respWithoutReviews => { reviews := [], errored := true }
  | .respReviews rs => { reviews := rs, errored := false }

/-- The inputs of one `main` run: the two sidebar text inputs (empty
string when left blank), the two environment variables (`none` when
unset), whether the Run Analysis button was pressed, and the two
collaborators' behaviour. -/
structure MainInput where
  openai_api_key_input : Str
  serpapi_key_input : Str
  env_openai_key : Option Str
  env_serpapi_key : Option Str
  run_analysis : Bool
  serp : SerpResult
  llmReply : LLMReply

/-- Observable outcome of one `main` run. -/
structure MainOutput where
  credWarned : Bool
  fetchCalled : Bool
  analyzeCalled : Bool
  llmCalled : Bool
  fetchErrorShown : Bool
  analyzeErrorShown : Bool
  teams_analysis : Option JsonVal
  teams_ratings : Option (List Int)

/-- `openai_api_key = st.text_input(...)` then
`if not openai_api_key: openai_api_key = os.getenv(...)`. -/
def resolveKey (input : Str) (env : Option Str) : Option Str :=
  if input ≠ [] then some input else env

/-- Python truthiness of the resolved key (`None` and `""` are falsy). -/
def keyTruthy : Option Str → Bool
  | none => false
  | some s => !s.isEmpty

def teamsAppId : Str := chars "1113153706"

def teamsName : Str := chars "Microsoft Teams"

/-- `main` (lines 208–403 of `app.py`), reduced to its control flow:
resolve both keys, halt with a warning when either is falsy, then on
Run Analysis fetch the reviews, halt with an error when the list is
empty, and otherwise analyze them. -/
def mainRun (jsonLoads : Str → Option JsonVal) (inp : MainInput) :
    MainOutput :=
  let okey := resolveKey inp.openai_api_key_input inp.env_openai_key
  let skey := resolveKey inp.serpapi_key_input inp.env_serpapi_key
  if !(keyTruthy okey && keyTruthy skey) then
    { credWarned := true, fetchCalled := false, analyzeCalled := false,
      llmCalled := false, fetchErrorShown := false,
      analyzeErrorShown := false, teams_analysis := none,
      teams_ratings := none }
  else if inp.run_analysis then
    let fetched := fetch_app_store_reviews teamsAppId
      ((resolveKey inp.serpapi_key_input inp.env_serpapi_key).getD []) 25 inp.serp
    if fetched.reviews = [] then
      { credWarned := false, fetchCalled := true, analyzeCalled := false,
        llmCalled := false, fetchErrorShown := true,
        analyzeErrorShown := false, teams_analysis := none,
        teams_ratings := none }
    else
      let out := analyze_reviews_with_openai jsonLoads fetched.reviews
        teamsName inp.llmReply
      { credWarned := false, fetchCalled := true, analyzeCalled := true,
        llmCalled := out.calledLLM, fetchErrorShown := false,
        analyzeErrorShown := out.result.isNone,
        teams_analysis := out.result.map Prod.fst,
        teams_ratings := out.result.map Prod.snd }
  else
    { credWarned := false, fetchCalled := false, analyzeCalled := false,
      llmCalled := false, fetchErrorShown := false,
      analyzeErrorShown := false, teams_analysis := none,
      teams_ratings := none }

/-! ## Dictionary and counting lemmas -/

theorem lookupKey_setKey (fs : List (Str × JsonVal)) (k : Str) (v : JsonVal) :
    lookupKey (setKey fs k v) k = some v := by
  induction fs with
  | nil => simp [setKey, lookupKey]
  | cons hd tl ih =>
      obtain ⟨k', v'⟩ := hd
      by_cases hk : k' = k
      · simp [setKey, hk, lookupKey]
      · simp [setKey, hk, lookupKey, ih]

theorem jsonGet_of_jsonSet {v v' : JsonVal} {k : Str} {w : JsonVal}
    (h : jsonSet v k w = some v') : jsonGet v' k = some w := by
  cases v with
  | obj fields =>
      simp [jsonSet] at h
      subst h
      simp [jsonGet, lookupKey_setKey]
  | null => simp [jsonSet] at h
  | bool b => simp [jsonSet] at h
  | num q => simp [jsonSet] at h
  | str s => simp [jsonSet] at h
  | arr es => simp [jsonSet] at h

def sumCounts (c : RatingCounts) : Nat := c.c1 + c.c2 + c.c3 + c.c4 + c.c5

theorem sumCounts_bump (c : RatingCounts) (r : Int) :
    sumCounts (bump c r) =
      sumCounts c + (if r ∈ ([1, 2, 3, 4, 5] : List Int) then 1 else 0) := by
  by_cases h1 : r = 1
  · simp [bump, sumCounts, h1]; omega
  · by_cases h2 : r = 2
    · simp [bump, sumCounts, h1, h2]; omega
    · by_cases h3 : r = 3
      · simp [bump, sumCounts, h1, h2, h3]; omega
      · by_cases h4 : r = 4
        · simp [bump, sumCounts, h1, h2, h3, h4]; omega
        · by_cases h5 : r = 5
          · simp [bump, sumCounts, h1, h2, h3, h4, h5]; omega
          · simp [bump, sumCounts, h1, h2, h3, h4, h5]

theorem bump_of_not_mem {r : Int} (c : RatingCounts)
    (h : r ∉ ([1, 2, 3, 4, 5] : List Int)) : bump c r = c := by
  simp at h
  simp [bump, h.1, h.2.1, h.2.2.1, h.2.2.2.1, h.2.2.2.2]

theorem sumCounts_foldl (rs : List Int) (c : RatingCounts) :
    sumCounts (rs.foldl bump c) =
      sumCounts c + (rs.filter (fun r => r ∈ ([1, 2, 3, 4, 5] : List Int))).length := by
  induction rs generalizing c with
  | nil => simp
  | cons r rs ih =>
      by_cases hr : r ∈ ([1, 2, 3, 4, 5] : List Int)
      · rw [List.foldl_cons, ih, sumCounts_bump, if_pos hr,
          List.filter_cons_of_pos (by simpa using hr), List.length_cons]
        omega
      · rw [List.foldl_cons, ih, sumCounts_bump, if_neg hr,
          List.filter_cons_of_neg (by simpa using hr)]
        omega

/-- C1: whenever `analyze_reviews_with_openai` returns a non-`None`
analysis, the returned ratings are exactly the fetched ratings and the
`rating_distribution` field of the returned analysis equals the counts
of ratings 1..5 recomputed from them — regardless of the reply text
and of whether it parsed or the fallback object was substituted. -/
theorem c1_rating_distribution_always_recomputed
    (jsonLoads : Str → Option JsonVal) (reviews : List RawReview)
    (app_name : Str) (llmReply : LLMReply) (a : JsonVal) (rs : List Int)
    (h : (analyze_reviews_with_openai jsonLoads reviews app_name llmReply).result
          = some (a, rs)) :
    rs = extractRatings reviews ∧
    jsonGet a (chars "rating_distribution")
      = some (distObj (extractRatings reviews)) := by
  by_cases hrt : extractTexts reviews = []
  · simp [analyze_reviews_with_openai, hrt] at h
  · cases llmReply with
    | error e => simp [analyze_reviews_with_openai, hrt] at h
    | ok text =>
        cases hset : jsonSet ((jsonLoads (cleanedText text)).getD fallbackAnalysis)
            (chars "rating_distribution") (distObj (extractRatings reviews)) with
        | none => simp [analyze_reviews_with_openai, hrt, hset] at h
        | some a2 =>
            simp [analyze_reviews_with_openai, hrt, hset] at h
            obtain ⟨ha, hrs⟩ := h
            subst ha
            subst hrs
            exact ⟨rfl, jsonGet_of_jsonSet hset⟩

/-- Witness for C1 at a concrete run: one review with text `"ok"` and
rating 5, a reply that fails to parse. -/
theorem c1_rating_distribution_witness :
    ([(5 : Int)] = extractRatings [⟨some (chars "ok"), some 5⟩]) ∧
    jsonGet ((jsonSet fallbackAnalysis (chars "rating_distribution")
        (distObj [5])).getD .null) (chars "rating_distribution")
      = some (distObj (extractRatings [⟨some (chars "ok"), some 5⟩])) :=
  c1_rating_distribution_always_recomputed (fun _ => none)
    [⟨some (chars "ok"), some 5⟩] (chars "X") (.ok (chars "junk"))
    ((jsonSet fallbackAnalysis (chars "rating_distribution")
        (distObj [5])).getD .null) [5] (by rfl)

/-- C2: the recomputed rating counts sum to exactly the number of
ratings in {1,2,3,4,5}; a rating outside that set contributes to no
bucket (removing it leaves every bucket unchanged) and is silently
skipped rather than raising. -/
theorem c2_rating_counts_sum_and_skip (ratings : List Int) :
    (ratingCounts ratings).c1 + (ratingCounts ratings).c2
        + (ratingCounts ratings).c3 + (ratingCounts ratings).c4
        + (ratingCounts ratings).c5
      = (ratings.filter (fun r => r ∈ ([1, 2, 3, 4, 5] : List Int))).length ∧
    ∀ (xs ys : List Int) (r : Int), r ∉ ([1, 2, 3, 4, 5] : List Int) →
      ratingCounts (xs ++ r :: ys) = ratingCounts (xs ++ ys) := by
  constructor
  · have h := sumCounts_foldl ratings ⟨0, 0, 0, 0, 0⟩
    simpa [ratingCounts, sumCounts] using h
  · intro xs ys r hr
    unfold ratingCounts
    rw [List.foldl_append, List.foldl_append, List.foldl_cons,
      bump_of_not_mem _ hr]

/-- Witness for C2 at a concrete input: the rating 0 is skipped. -/
theorem c2_rating_counts_witness :
    ¬ ((0 : Int) ∈ ([1, 2, 3, 4, 5] : List Int)) ∧
    ratingCounts ([1] ++ (0 : Int) :: [5]) = ratingCounts ([1] ++ [5]) :=
  ⟨by decide, (c2_rating_counts_sum_and_skip []).2 [1] [5] 0 (by decide)⟩

/-! ## Fallback and control-flow lemmas -/

/-- The fallback object with its `rating_distribution` binding
replaced by `w` (the shape produced by the overwrite at line 169). -/
def fallbackWith (w : JsonVal) : JsonVal :=
  .obj [ (chars "overall_sentiment", .str (chars "neutral")),
         (chars "sentiment_score", .num (1 / 2)),
         (chars "key_themes", .arr [.str (chars "User feedback analysis completed")]),
         (chars "common_issues", .arr [.str (chars "Review analysis available")]),
         (chars "strengths", .arr [.str (chars "User insights gathered")]),
         (chars "user_experience_feedback", .str (chars "Analysis completed successfully")),
         (chars "feature_requests", .arr [.str (chars "User feedback processed")]),
         (chars "rating_distribution", w) ]

theorem jsonSet_fallbackAnalysis (w : JsonVal) :
    jsonSet fallbackAnalysis (chars "rating_distribution") w
      = some (fallbackWith w) := by
  rfl

theorem jsonSet_eq_none {v : JsonVal} {k : Str} {w : JsonVal}
    (hno : ∀ fields, v ≠ JsonVal.obj fields) : jsonSet v k w = none := by
  cases v with
  | obj fields => exact absurd rfl (hno fields)
  | null => rfl
  | bool b => rfl
  | num q => rfl
  | str s => rfl
  | arr es => rfl

/-- C3: a reply whose cleaned text does not parse as JSON never
propagates the error: the fixed fallback object (neutral sentiment,
score 0.5, placeholder strings) is substituted with its
`rating_distribution` recomputed, a non-fatal warning fires, and the
call returns normally (no `st.error`, non-`None` result). -/
theorem c3_parse_failure_uses_fallback
    (jsonLoads : Str → Option JsonVal) (reviews : List RawReview)
    (app_name : Str) (text : Str)
    (hrt : extractTexts reviews ≠ [])
    (hparse : jsonLoads (cleanedText text) = none) :
    (analyze_reviews_with_openai jsonLoads reviews app_name (.ok text)).warned
        = true ∧
    (analyze_reviews_with_openai jsonLoads reviews app_name (.ok text)).errored
        = false ∧
    (analyze_reviews_with_openai jsonLoads reviews app_name (.ok text)).result
        = some (fallbackWith (distObj (extractRatings reviews)),
                extractRatings reviews) := by
  simp [analyze_reviews_with_openai, hrt, hparse, jsonSet_fallbackAnalysis]

/-- Witness for C3: one review, a truncated-JSON reply under a parser
that rejects everything. -/
theorem c3_parse_failure_witness :
    (extractTexts [⟨some (chars "ok"), some 4⟩] ≠ []) ∧
    (analyze_reviews_with_openai (fun _ => none) [⟨some (chars "ok"), some 4⟩]
        (chars "X") (.ok (chars "\x7b\"overall"))).warned = true ∧
    (analyze_reviews_with_openai (fun _ => none) [⟨some (chars "ok"), some 4⟩]
        (chars "X") (.ok (chars "\x7b\"overall"))).errored = false ∧
    (analyze_reviews_with_openai (fun _ => none) [⟨some (chars "ok"), some 4⟩]
        (chars "X") (.ok (chars "\x7b\"overall"))).result
      = some (fallbackWith (distObj (extractRatings [⟨some (chars "ok"), some 4⟩])),
              extractRatings [⟨some (chars "ok"), some 4⟩]) :=
  ⟨by decide,
   c3_parse_failure_uses_fallback (fun _ => none) [⟨some (chars "ok"), some 4⟩]
     (chars "X") (chars "\x7b\"overall") (by decide) rfl⟩

/-- C10: a reply that parses as valid JSON whose value is not an
object makes `analyze_reviews_with_openai` return `(None, None)` (the
fallback applies only to decode errors, so no warning fires; the
failed item assignment is caught by the outer handler, which reports
an error). -/
theorem c10_non_object_json_returns_none
    (jsonLoads : Str → Option JsonVal) (reviews : List RawReview)
    (app_name : Str) (text : Str) (v : JsonVal)
    (hrt : extractTexts reviews ≠ [])
    (hparse : jsonLoads (cleanedText text) = some v)
    (hno : ∀ fields, v ≠ JsonVal.obj fields) :
    (analyze_reviews_with_openai jsonLoads reviews app_name (.ok text)).result
        = none ∧
    (analyze_reviews_with_openai jsonLoads reviews app_name (.ok text)).warned
        = false ∧
    (analyze_reviews_with_openai jsonLoads reviews app_name (.ok text)).errored
        = true := by
  simp [analyze_reviews_with_openai, hrt, hparse, jsonSet_eq_none hno]

/-- Witness for C10: a reply parsed as the JSON array `[1]`. -/
theorem c10_non_object_witness :
    (extractTexts [⟨some (chars "ok"), some 4⟩] ≠ []) ∧
    (analyze_reviews_with_openai
        (fun s => if s = chars "[1]" then some (.arr [.num 1]) else none)
        [⟨some (chars "ok"), some 4⟩] (chars "X") (.ok (chars "[1]"))).result
      = none ∧
    (analyze_reviews_with_openai
        (fun s => if s = chars "[1]" then some (.arr [.num 1]) else none)
        [⟨some (chars "ok"), some 4⟩] (chars "X") (.ok (chars "[1]"))).warned
      = false ∧
    (analyze_reviews_with_openai
        (fun s => if s = chars "[1]" then some (.arr [.num 1]) else none)
        [⟨some (chars "ok"), some 4⟩] (chars "X") (.ok (chars "[1]"))).errored
      = true :=
  ⟨by decide,
   c10_non_object_json_returns_none
     (fun s => if s = chars "[1]" then some (.arr [.num 1]) else none)
     [⟨some (chars "ok"), some 4⟩] (chars "X") (chars "[1]") (.arr [.num 1])
     (by decide) (by rfl) (by intro fields h; cases h)⟩

theorem extractTexts_eq_nil {reviews : List RawReview}
    (h : ∀ r ∈ reviews, ∀ t, r.text = some t → t = []) :
    extractTexts reviews = [] := by
  apply List.filterMap_eq_nil_iff.mpr
  intro r hr
  cases hx : r.text with
  | none => simp [hx]
  | some t =>
      have ht := h r hr t hx
      simp [hx, ht]

/-- C6: when no review has a non-empty text field,
`analyze_reviews_with_openai` returns `(None, None)` and the
chat-completion collaborator is never invoked (no prompt is even
built), whatever the collaborator would have replied. -/
theorem c6_no_text_short_circuits
    (jsonLoads : Str → Option JsonVal) (reviews : List RawReview)
    (app_name : Str) (llmReply : LLMReply)
    (h : ∀ r ∈ reviews, ∀ t, r.text = some t → t = []) :
    (analyze_reviews_with_openai jsonLoads reviews app_name llmReply).result
        = none ∧
    (analyze_reviews_with_openai jsonLoads reviews app_name llmReply).calledLLM
        = false ∧
    (analyze_reviews_with_openai jsonLoads reviews app_name llmReply).prompt
        = none := by
  simp [analyze_reviews_with_openai, extractTexts_eq_nil h]

/-- Witness for C6: one review with an empty text and one without a
text key; the collaborator reply is irrelevant. -/
theorem c6_no_text_witness :
    (∀ r ∈ [(⟨some [], some 2⟩ : RawReview), ⟨none, some 5⟩],
        ∀ t, r.text = some t → t = []) ∧
    (analyze_reviews_with_openai (fun _ => none)
        [⟨some [], some 2⟩, ⟨none, some 5⟩] (chars "X")
        (.ok (chars "ignored"))).result = none ∧
    (analyze_reviews_with_openai (fun _ => none)
        [⟨some [], some 2⟩, ⟨none, some 5⟩] (chars "X")
        (.ok (chars "ignored"))).calledLLM = false ∧
    (analyze_reviews_with_openai (fun _ => none)
        [⟨some [], some 2⟩, ⟨none, some 5⟩] (chars "X")
        (.ok (chars "ignored"))).prompt = none :=
  ⟨by decide,
   c6_no_text_short_circuits (fun _ => none)
     [⟨some [], some 2⟩, ⟨none, some 5⟩] (chars "X")
     (.ok (chars "ignored")) (by decide)⟩

/-- C5: a search response without a `"reviews"` key and a raised
transport/credential failure both degrade to an empty list with the
failure reported; and whenever the fetch result is empty, `main` halts
before the text-generation collaborator is invoked (the analysis step
is never entered). -/
theorem c5_fetch_failures_degrade_and_halt
    (jsonLoads : Str → Option JsonVal) (inp : MainInput)
    (app_id api_key : Str) (max_reviews : Nat)
    (hempty : (fetch_app_store_reviews teamsAppId
        ((resolveKey inp.serpapi_key_input inp.env_serpapi_key).getD []) 25
        inp.serp).reviews = []) :
    (fetch_app_store_reviews app_id api_key max_reviews .respWithoutReviews).reviews
        = [] ∧
    (fetch_app_store_reviews app_id api_key max_reviews .respWithoutReviews).errored
        = true ∧
    (fetch_app_store_reviews app_id api_key max_reviews .raised).reviews = [] ∧
    (fetch_app_store_reviews app_id api_key max_reviews .raised).errored = true ∧
    (mainRun jsonLoads inp).llmCalled = false ∧
    (mainRun jsonLoads inp).analyzeCalled = false := by
  refine ⟨rfl, rfl, rfl, rfl, ?_⟩
  by_cases hc : (!(keyTruthy (resolveKey inp.openai_api_key_input inp.env_openai_key)
      && keyTruthy (resolveKey inp.serpapi_key_input inp.env_serpapi_key))) = true
  · simp [mainRun, hc]
  · by_cases hr : inp.run_analysis = true
    · simp [mainRun, hc, hr, hempty]
    · simp [mainRun, hc, hr]

/-- Witness for C5: a run with both keys present in which the search
collaborator raises. -/
theorem c5_fetch_failures_witness :
    ((fetch_app_store_reviews teamsAppId
        ((resolveKey (chars "sk") none).getD []) 25 .raised).reviews = []) ∧
    (mainRun (fun _ => none)
        ⟨chars "ok", chars "sk", none, none, true, .raised,
          .ok (chars "ignored")⟩).llmCalled = false ∧
    (mainRun (fun _ => none)
        ⟨chars "ok", chars "sk", none, none, true, .raised,
          .ok (chars "ignored")⟩).analyzeCalled = false := by
  refine ⟨by decide, ?_, ?_⟩
  · exact (c5_fetch_failures_degrade_and_halt (fun _ => none)
      ⟨chars "ok", chars "sk", none, none, true, .raised, .ok (chars "ignored")⟩
      [] [] 0 (by decide)).2.2.2.2.1
  · exact (c5_fetch_failures_degrade_and_halt (fun _ => none)
      ⟨chars "ok", chars "sk", none, none, true, .raised, .ok (chars "ignored")⟩
      [] [] 0 (by decide)).2.2.2.2.2

theorem keyTruthy_resolve_absent {input : Str} {env : Option Str}
    (hin : input = []) (henv : env = none ∨ env = some []) :
    keyTruthy (resolveKey input env) = false := by
  subst hin
  rcases henv with h | h <;> subst h <;> rfl

/-- C8: when either API key is absent from both the sidebar input and
the environment (unset or empty), `main` shows the warning and halts
before any network call: neither the fetch nor the analysis nor the
chat-completion call happens. -/
theorem c8_missing_key_halts_before_network
    (jsonLoads : Str → Option JsonVal) (inp : MainInput)
    (h : (inp.openai_api_key_input = [] ∧
            (inp.env_openai_key = none ∨ inp.env_openai_key = some [])) ∨
         (inp.serpapi_key_input = [] ∧
            (inp.env_serpapi_key = none ∨ inp.env_serpapi_key = some []))) :
    (mainRun jsonLoads inp).credWarned = true ∧
    (mainRun jsonLoads inp).fetchCalled = false ∧
    (mainRun jsonLoads inp).analyzeCalled = false ∧
    (mainRun jsonLoads inp).llmCalled = false := by
  rcases h with ⟨h1, h2⟩ | ⟨h1, h2⟩ <;>
    simp [mainRun, keyTruthy_resolve_absent h1 h2]

/-- Witness for C8: the generation-service key is blank in the sidebar
and unset in the environment while the search key is present. -/
theorem c8_missing_key_witness :
    (([] : Str) = [] ∧ ((none : Option Str) = none ∨ (none : Option Str) = some [])) ∧
    (mainRun (fun _ => none)
        ⟨[], chars "sk", none, some (chars "s2"), true, .respReviews [],
          .ok (chars "ignored")⟩).credWarned = true ∧
    (mainRun (fun _ => none)
        ⟨[], chars "sk", none, some (chars "s2"), true, .respReviews [],
          .ok (chars "ignored")⟩).fetchCalled = false ∧
    (mainRun (fun _ => none)
        ⟨[], chars "sk", none, some (chars "s2"), true, .respReviews [],
          .ok (chars "ignored")⟩).analyzeCalled = false ∧
    (mainRun (fun _ => none)
        ⟨[], chars "sk", none, some (chars "s2"), true, .respReviews [],
          .ok (chars "ignored")⟩).llmCalled = false :=
  ⟨⟨rfl, Or.inl rfl⟩,
   c8_missing_key_halts_before_network (fun _ => none)
     ⟨[], chars "sk", none, some (chars "s2"), true, .respReviews [],
       .ok (chars "ignored")⟩ (Or.inl ⟨rfl, Or.inl rfl⟩)⟩

/-! ## String-stripping lemmas -/

theorem dropWhile_idem (p : Char → Bool) (l : Str) :
    (l.dropWhile p).dropWhile p = l.dropWhile p := by
  induction l with
  | nil => rfl
  | cons c l ih =>
      by_cases h : p c = true
      · simp [List.dropWhile_cons, h, ih]
      · simp [List.dropWhile_cons, h]

theorem pyStripLeft_cons {c : Char} (l : Str) (h : ¬ c.isWhitespace) :
    pyStripLeft (c :: l) = c :: l := by
  simp [pyStripLeft, List.dropWhile_cons, h]

theorem pyStripRight_append {d : Char} (l : Str) (h : ¬ d.isWhitespace) :
    pyStripRight (l ++ [d]) = l ++ [d] := by
  simp [pyStripRight, List.dropWhile_cons, h]

theorem pyStripLeft_idem (l : Str) : pyStripLeft (pyStripLeft l) = pyStripLeft l :=
  dropWhile_idem _ l

theorem pyStripRight_idem (l : Str) :
    pyStripRight (pyStripRight l) = pyStripRight l := by
  simp [pyStripRight, dropWhile_idem]

theorem pyStripLeft_head {c : Char} {m : Str}
    (hm : pyStripLeft (c :: m) = c :: m) : ¬ c.isWhitespace := by
  intro hc
  have h1 : pyStripLeft (c :: m) = pyStripLeft m := by
    simp [pyStripLeft, List.dropWhile_cons, hc]
  rw [hm] at h1
  have h2 : (pyStripLeft m).length ≤ m.length :=
    (List.dropWhile_sublist (l := m) Char.isWhitespace).length_le
  rw [← h1] at h2
  simp at h2

theorem pyStripLeft_of_isPrefix {l m : Str} (hm : pyStripLeft m = m)
    (hp : l <+: m) : pyStripLeft l = l := by
  cases l with
  | nil => rfl
  | cons c l' =>
      obtain ⟨t, ht⟩ := hp
      cases m with
      | nil => simp at ht
      | cons d m' =>
          rw [List.cons_append] at ht
          injection ht with h1 h2
          subst h1
          exact pyStripLeft_cons l' (pyStripLeft_head hm)

theorem pyStrip_parts {l : Str} (h : pyStrip l = l) :
    pyStripLeft l = l ∧ pyStripRight l = l := by
  have hsub : pyStripLeft l <:+ l := List.dropWhile_suffix _
  have hlen1 : (pyStrip l).length ≤ (pyStripLeft l).length := by
    have : (pyStrip l).length
        = ((pyStripLeft l).reverse.dropWhile Char.isWhitespace).length := by
      simp [pyStrip, pyStripRight]
    rw [this]
    have h2 := (List.dropWhile_sublist (l := (pyStripLeft l).reverse)
      Char.isWhitespace).length_le
    simpa using h2
  have hlen2 : (pyStripLeft l).length ≤ l.length := hsub.length_le
  have h1 : pyStripLeft l = l := by
    apply List.IsSuffix.eq_of_length hsub
    rw [h] at hlen1
    omega
  refine ⟨h1, ?_⟩
  have h2 : pyStrip l = pyStripRight l := by rw [pyStrip, h1]
  rw [← h2, h]

theorem pyStripLeft_first {l : Str} (h : pyStripLeft l = l) (hne : l ≠ []) :
    ∃ c l', l = c :: l' ∧ ¬ c.isWhitespace := by
  cases l with
  | nil => exact absurd rfl hne
  | cons c l' => exact ⟨c, l', rfl, pyStripLeft_head h⟩

theorem pyStripRight_last {l : Str} (h : pyStripRight l = l) (hne : l ≠ []) :
    ∃ l' d, l = l' ++ [d] ∧ ¬ d.isWhitespace := by
  have hrev : List.dropWhile Char.isWhitespace l.reverse = l.reverse := by
    have h2 := congrArg List.reverse h
    simpa [pyStripRight] using h2
  cases hr : l.reverse with
  | nil =>
      exfalso
      apply hne
      have h3 := congrArg List.reverse hr
      simpa using h3
  | cons d m =>
      have hd : ¬ d.isWhitespace := by
        apply pyStripLeft_head (m := m)
        rw [pyStripLeft, ← hr, hrev, hr]
      refine ⟨m.reverse, d, ?_, hd⟩
      have h3 := congrArg List.reverse hr
      simpa using h3

theorem pyStrip_of_sandwich {c d : Char} (m : Str) (hc : ¬ c.isWhitespace)
    (hd : ¬ d.isWhitespace) : pyStrip (c :: (m ++ [d])) = c :: (m ++ [d]) := by
  rw [pyStrip, pyStripLeft_cons (m ++ [d]) hc]
  exact pyStripRight_append (c :: m) hd

theorem pyStrip_idem (l : Str) : pyStrip (pyStrip l) = pyStrip l := by
  have hpre : pyStrip l <+: pyStripLeft l := by
    rw [pyStrip, pyStripRight]
    conv_rhs => rw [← List.reverse_reverse (pyStripLeft l)]
    exact List.reverse_prefix.mpr (List.dropWhile_suffix _)
  have h1 : pyStripLeft (pyStrip l) = pyStrip l :=
    pyStripLeft_of_isPrefix (pyStripLeft_idem l) hpre
  have e : pyStrip (pyStrip l) = pyStripRight (pyStripLeft (pyStrip l)) := rfl
  rw [e, h1]
  exact pyStripRight_idem (pyStripLeft l)

/-- A backtick, constructed by code point to keep proofs about the
fence strings self-contained. -/
def btick : Char := Char.ofNat 96

theorem btick_not_ws : ¬ btick.isWhitespace := by decide

theorem fence3_eq : chars "```" = chars "``" ++ [btick] := by decide

theorem fenceJson_eq : chars "```json" = btick :: chars "``json" := by decide

theorem fence3_eq_cons : chars "```" = btick :: chars "``" := by decide

/-- A string whose trimmed form bears no leading `` ```json `` and no
trailing `` ``` `` is only trimmed by the cleaning step. -/
theorem cleanedText_of_no_fences {s : Str}
    (hpre : ¬ chars "```json" <+: pyStrip s)
    (hsuf : ¬ chars "```" <:+ pyStrip s) : cleanedText s = pyStrip s := by
  rw [cleanedText, stripLeadingFence, if_neg hpre, stripTrailingFence,
    if_neg hsuf]
  exact pyStrip_idem s

theorem pyStrip_fenceJson_wrap (J : Str) :
    pyStrip (chars "```json" ++ J ++ chars "```")
      = chars "```json" ++ J ++ chars "```" := by
  have he : chars "```json" ++ J ++ chars "```"
      = btick :: ((chars "``json" ++ J ++ chars "``") ++ [btick]) := by
    rw [fenceJson_eq, fence3_eq]
    simp
  rw [he]
  exact pyStrip_of_sandwich _ btick_not_ws btick_not_ws

theorem pyStrip_fence_wrap (J : Str) :
    pyStrip (chars "```" ++ J ++ chars "```")
      = chars "```" ++ J ++ chars "```" := by
  have he : chars "```" ++ J ++ chars "```"
      = btick :: ((chars "``" ++ J ++ chars "``") ++ [btick]) := by
    nth_rewrite 2 [fence3_eq]
    rw [fence3_eq_cons]
    simp
  rw [he]
  exact pyStrip_of_sandwich _ btick_not_ws btick_not_ws

theorem pyStrip_fenceJson_append {K : Str} (hK : pyStrip K = K) (hne : K ≠ []) :
    pyStrip (chars "```json" ++ K) = chars "```json" ++ K := by
  obtain ⟨K', d, hKd, hd⟩ := pyStripRight_last (pyStrip_parts hK).2 hne
  have he : chars "```json" ++ K = btick :: ((chars "``json" ++ K') ++ [d]) := by
    rw [hKd, fenceJson_eq]
    simp
  rw [he]
  exact pyStrip_of_sandwich _ btick_not_ws hd

theorem pyStrip_fence_append {J : Str} (hJ : pyStrip J = J) (hne : J ≠ []) :
    pyStrip (chars "```" ++ J) = chars "```" ++ J := by
  obtain ⟨J', d, hJd, hd⟩ := pyStripRight_last (pyStrip_parts hJ).2 hne
  have he : chars "```" ++ J = btick :: ((chars "``" ++ J') ++ [d]) := by
    rw [hJd, fence3_eq_cons]
    simp
  rw [he]
  exact pyStrip_of_sandwich _ btick_not_ws hd

theorem pyStrip_append_fence {K : Str} (hK : pyStrip K = K) (hne : K ≠ []) :
    pyStrip (K ++ chars "```") = K ++ chars "```" := by
  obtain ⟨c, K', hKc, hc⟩ := pyStripLeft_first (pyStrip_parts hK).1 hne
  have he : K ++ chars "```" = c :: ((K' ++ chars "``") ++ [btick]) := by
    rw [hKc, fence3_eq]
    simp
  rw [he]
  exact pyStrip_of_sandwich _ hc btick_not_ws

theorem drop7_fenceJson (Y : Str) : (chars "```json" ++ Y).drop 7 = Y := by
  have h7 : (7 : Nat) = (chars "```json").length := rfl
  rw [h7, List.drop_left]

theorem take_sub_fence (Y : Str) :
    (Y ++ chars "```").take ((Y ++ chars "```").length - 3) = Y := by
  have h3 : (chars "```").length = 3 := rfl
  have hlen : (Y ++ chars "```").length - 3 = Y.length := by
    rw [List.length_append, h3]
    omega
  rw [hlen, List.take_left]

/-- C4: a well-formed JSON text — whose trimmed form cannot begin with
`` ```json `` or end with `` ``` `` — wrapped in Markdown code fences
cleans to exactly what the unwrapped text cleans to, so any parser
(in particular strict JSON parsing) sees the same input, and the whole
analysis behaves identically on the wrapped and unwrapped replies. -/
theorem c4_fenced_json_parses_identically (J : Str)
    (hpre : ¬ chars "```json" <+: pyStrip J)
    (hsuf : ¬ chars "```" <:+ pyStrip J) :
    cleanedText (chars "```json" ++ J ++ chars "```") = cleanedText J ∧
    ∀ (jsonLoads : Str → Option JsonVal) (reviews : List RawReview)
      (app_name : Str),
      analyze_reviews_with_openai jsonLoads reviews app_name
          (.ok (chars "```json" ++ J ++ chars "```"))
        = analyze_reviews_with_openai jsonLoads reviews app_name (.ok J) := by
  have hw : cleanedText (chars "```json" ++ J ++ chars "```") = pyStrip J := by
    rw [cleanedText, pyStrip_fenceJson_wrap, stripLeadingFence,
      if_pos ⟨J ++ chars "```", by simp⟩, List.append_assoc, drop7_fenceJson,
      stripTrailingFence, if_pos ⟨J, rfl⟩, take_sub_fence]
  have hcc : cleanedText (chars "```json" ++ J ++ chars "```") = cleanedText J :=
    hw.trans (cleanedText_of_no_fences hpre hsuf).symm
  refine ⟨hcc, ?_⟩
  intro jsonLoads reviews app_name
  simp only [analyze_reviews_with_openai, hcc]

/-- Witness for C4 at the concrete JSON text `{"a": 1}`. -/
theorem c4_fenced_json_witness :
    (¬ chars "```json" <+: pyStrip (chars "\x7b\"a\": 1\x7d")) ∧
    cleanedText (chars "```json" ++ chars "\x7b\"a\": 1\x7d" ++ chars "```")
      = cleanedText (chars "\x7b\"a\": 1\x7d") :=
  ⟨by decide,
   (c4_fenced_json_parses_identically (chars "\x7b\"a\": 1\x7d")
     (by decide) (by decide)).1⟩

/-- C9: the cleaning step removes only a prefix that is exactly
`` ```json `` and, independently, a suffix that is exactly `` ``` ``:
a reply wrapped in plain `` ``` `` fences keeps its opening fence (so
a strict JSON parse of it fails and the fallback object is used), and
a reply with only one of the two fences still has that fence
stripped. -/
theorem c9_fence_stripping_exact (J K : Str)
    (hJne : J ≠ []) (hJ : pyStrip J = J)
    (hnp : ¬ chars "```json" <+: (chars "```" ++ J ++ chars "```"))
    (hKne : K ≠ []) (hK : pyStrip K = K)
    (hKs : ¬ chars "```" <:+ K)
    (hKp : ¬ chars "```json" <+: (K ++ chars "```")) :
    cleanedText (chars "```" ++ J ++ chars "```") = chars "```" ++ J ∧
    (∀ (jsonLoads : Str → Option JsonVal) (reviews : List RawReview)
       (app_name : Str),
       (∀ s, chars "```" <+: s → jsonLoads s = none) →
       extractTexts reviews ≠ [] →
       (analyze_reviews_with_openai jsonLoads reviews app_name
           (.ok (chars "```" ++ J ++ chars "```"))).warned = true ∧
       (analyze_reviews_with_openai jsonLoads reviews app_name
           (.ok (chars "```" ++ J ++ chars "```"))).result
         = some (fallbackWith (distObj (extractRatings reviews)),
                 extractRatings reviews)) ∧
    cleanedText (chars "```json" ++ K) = K ∧
    cleanedText (K ++ chars "```") = K := by
  have h1 : cleanedText (chars "```" ++ J ++ chars "```") = chars "```" ++ J := by
    rw [cleanedText, pyStrip_fence_wrap, stripLeadingFence, if_neg hnp,
      stripTrailingFence, if_pos ⟨chars "```" ++ J, rfl⟩, take_sub_fence]
    exact pyStrip_fence_append hJ hJne
  refine ⟨h1, ?_, ?_, ?_⟩
  · intro jsonLoads reviews app_name hstrict hrt
    have hparse : jsonLoads
        (cleanedText (chars "```" ++ J ++ chars "```")) = none := by
      rw [h1]
      exact hstrict _ ⟨J, rfl⟩
    have hparse2 : jsonLoads
        (cleanedText (chars "```" ++ (J ++ chars "```"))) = none := by
      rw [← List.append_assoc]
      exact hparse
    constructor <;>
      simp [analyze_reviews_with_openai, hrt, hparse2, jsonSet_fallbackAnalysis]
  · rw [cleanedText, pyStrip_fenceJson_append hK hKne, stripLeadingFence,
      if_pos ⟨K, rfl⟩, drop7_fenceJson, stripTrailingFence, if_neg hKs]
    exact hK
  · rw [cleanedText, pyStrip_append_fence hK hKne, stripLeadingFence,
      if_neg hKp, stripTrailingFence, if_pos ⟨K, rfl⟩, take_sub_fence]
    exact hK

/-- Witness for C9 with the plain-fenced reply ```` ```x``` ```` and the
single-fenced texts built from `{}`, under a parser rejecting
fence-led strings. -/
theorem c9_fence_stripping_witness :
    (chars "x" ≠ [] ∧ pyStrip (chars "x") = chars "x") ∧
    cleanedText (chars "```" ++ chars "x" ++ chars "```")
      = chars "```" ++ chars "x" ∧
    cleanedText (chars "```json" ++ chars "\x7b\x7d") = chars "\x7b\x7d" ∧
    cleanedText (chars "\x7b\x7d" ++ chars "```") = chars "\x7b\x7d" ∧
    (analyze_reviews_with_openai (fun _ => none)
        [⟨some (chars "ok"), some 3⟩] (chars "X")
        (.ok (chars "```" ++ chars "x" ++ chars "```"))).warned = true := by
  have h := c9_fence_stripping_exact (chars "x") (chars "\x7b\x7d")
    (by decide) (by decide) (by decide) (by decide) (by decide) (by decide)
    (by decide)
  exact ⟨⟨by decide, by decide⟩, h.1, h.2.2.1, h.2.2.2,
    (h.2.1 (fun _ => none) [⟨some (chars "ok"), some 3⟩] (chars "X")
      (fun s _ => rfl) (by decide)).1⟩

/-- The end-to-end scenario input of §8 of the spec. -/
def scenarioReviews : List RawReview :=
  [⟨some (chars "Great app"), some 5⟩, ⟨some (chars ""), some 2⟩,
   ⟨some (chars "Crashes a lot"), some 1⟩]

theorem prompt_of_ok (jsonLoads : Str → Option JsonVal)
    (reviews : List RawReview) (app_name text : Str)
    (hrt : extractTexts reviews ≠ []) :
    (analyze_reviews_with_openai jsonLoads reviews app_name (.ok text)).prompt
      = some (buildPrompt (extractTexts reviews) app_name) := by
  cases hset : jsonSet ((jsonLoads (cleanedText text)).getD fallbackAnalysis)
      (chars "rating_distribution") (distObj (extractRatings reviews)) with
  | none => simp [analyze_reviews_with_openai, hrt, hset]
  | some a2 => simp [analyze_reviews_with_openai, hrt, hset]

/-- Counterexample to C7 as stated: on the scenario input the review
with text `"Great app"` carries rating 5, which the code counts, so
the recomputed distribution has `5_star = 1`, not `0` as the claim's
expected value says. -/
theorem c7_scenario_counterexample :
    ¬ (distObj (extractRatings scenarioReviews)
      = .obj [ (chars "1_star", .num 1), (chars "2_star", .num 1),
               (chars "3_star", .num 0), (chars "4_star", .num 0),
               (chars "5_star", .num 0) ]) := by
  intro h
  have h1 : distObj (extractRatings scenarioReviews)
      = .obj [ (chars "1_star", .num 1), (chars "2_star", .num 1),
               (chars "3_star", .num 0), (chars "4_star", .num 0),
               (chars "5_star", .num 1) ] := rfl
  rw [h1] at h
  simp at h

/-- C7 (amended): the prompt states the non-empty-review count and the
subject, embeds the space-joined first 50 non-empty texts and nothing
from empty or absent texts; on the scenario input, exactly the two
non-empty texts are embedded and the recomputed distribution is
`{1_star: 1, 2_star: 1, 3_star: 0, 4_star: 0, 5_star: 1}` — the
empty-text review's rating 2 and the first review's rating 5 are both
counted. -/
theorem c7_prompt_and_scenario_amended
    (jsonLoads : Str → Option JsonVal) (reviews : List RawReview)
    (app_name text : Str) (hrt : extractTexts reviews ≠ []) :
    (analyze_reviews_with_openai jsonLoads reviews app_name (.ok text)).prompt
        = some (buildPrompt (extractTexts reviews) app_name) ∧
    natChars (extractTexts reviews).length
        <:+: buildPrompt (extractTexts reviews) app_name ∧
    app_name <:+: buildPrompt (extractTexts reviews) app_name ∧
    joinSpace ((extractTexts reviews).take 50)
        <:+: buildPrompt (extractTexts reviews) app_name ∧
    extractTexts scenarioReviews = [chars "Great app", chars "Crashes a lot"] ∧
    joinSpace ((extractTexts scenarioReviews).take 50)
        = chars "Great app Crashes a lot" ∧
    distObj (extractRatings scenarioReviews)
      = .obj [ (chars "1_star", .num 1), (chars "2_star", .num 1),
               (chars "3_star", .num 0), (chars "4_star", .num 0),
               (chars "5_star", .num 1) ] := by
  refine ⟨prompt_of_ok jsonLoads reviews app_name text hrt,
    ?_, ?_, ?_, rfl, rfl, rfl⟩
  · exact ⟨promptPiece1, promptPiece2 ++ app_name ++ promptPiece3
      ++ joinSpace ((extractTexts reviews).take 50) ++ promptPiece4,
      by simp [buildPrompt]⟩
  · exact ⟨promptPiece1 ++ natChars (extractTexts reviews).length
      ++ promptPiece2, promptPiece3
      ++ joinSpace ((extractTexts reviews).take 50) ++ promptPiece4,
      by simp [buildPrompt]⟩
  · exact ⟨promptPiece1 ++ natChars (extractTexts reviews).length
      ++ promptPiece2 ++ app_name ++ promptPiece3, promptPiece4,
      by simp [buildPrompt]⟩

/-- Witness for the amended C7 on the scenario input. -/
theorem c7_prompt_witness :
    (extractTexts scenarioReviews ≠ []) ∧
    (analyze_reviews_with_openai (fun _ => none) scenarioReviews
        (chars "Microsoft Teams") (.ok (chars "reply"))).prompt
      = some (buildPrompt (extractTexts scenarioReviews)
          (chars "Microsoft Teams")) :=
  ⟨by decide,
   (c7_prompt_and_scenario_amended (fun _ => none) scenarioReviews
     (chars "Microsoft Teams") (chars "reply") (by decide)).1⟩
